import Mathlib

/-!
A shallow embedding, in Lean 4, of the request handlers of the
webapps-middleware backend (Express + Firestore), covering:

* the `verifyAuth` middleware shared by the route files
  (`routes/organizations.js`, `routes/devices.js`, `routes/gyms-routes.js`);
* the organization handlers (`GET /organizations`, `POST /organizations`,
  `PUT /organizations/:id`, `DELETE /organizations/:id`);
* the device handlers (`POST /devices`, `PUT /devices/:id`,
  `POST /devices/bulk-assign`);
* the gym handlers (`GET /organizations/:orgId/gyms`,
  `POST /organizations/:orgId/gyms`).

The Firestore store is modelled as association lists of documents keyed by
document id; `new Date().toISOString()`, the authenticated user id and
store-assigned ids are passed as explicit parameters.  Query-string integer
parsing for the `limit` parameter is abstracted to an already-parsed
`Option Nat`; no claim depends on it.  JavaScript `undefined` / `null` /
string values of request-body fields are modelled by the three-valued
`JStr`, and JavaScript truthiness by `JStr.truthy`.
-/

/-- A JavaScript request-body value that is either absent (`undefined`),
explicitly `null`, or a string. -/
inductive JStr where
  | jsUndefined
  | null
  | str (s : String)
deriving Repr, DecidableEq

namespace JStr

/-- JavaScript truthiness for `JStr`: `undefined`, `null` and the empty
string are falsy, every other string is truthy. -/
def truthy : JStr → Bool
  | jsUndefined => false
  | null => false
  | str s => !s.isEmpty

/-- The underlying string of a `JStr` (meaningful under `truthy`). -/
def getStr : JStr → String
  | str s => s
  | _ => ""

/-- JavaScript `v || d` for a body field `v` and string default `d`. -/
def orDefault (v : JStr) (d : String) : String :=
  if v.truthy then v.getStr else d

/-- JavaScript `v !== undefined`. -/
def isDefined : JStr → Bool
  | jsUndefined => false
  | _ => true

end JStr

/-- JavaScript truthiness of an optional string (absent or empty is falsy). -/
def jsTruthy : Option String → Bool
  | none => false
  | some s => !s.isEmpty

/-- Predicate `leadsWith sep l` holds when the character list `sep` is an initial
segment of `l` (the character-level form of JavaScript `startsWith`). -/
def leadsWith : List Char → List Char → Bool
  | [], _ => true
  | _ :: _, [] => false
  | c :: cs, d :: ds => c == d && leadsWith cs ds

/-- JavaScript `s.startsWith(sep)`. -/
def jsStartsWith (s sep : String) : Bool :=
  leadsWith sep.data s.data

/-- Splits a character list at every (non-overlapping, left-to-right)
occurrence of the separator `sep`, the semantics of JavaScript
`String.prototype.split` with a non-empty string separator.  `acc` holds the
characters of the current piece in reverse; the `fuel` argument makes the
recursion structural and never runs out when it starts at the length of the
list being split. -/
def jsSplitGo (sep : List Char) : Nat → List Char → List Char → List (List Char)
  | _, [], acc => [acc.reverse]
  | 0, rest, acc => [acc.reverse ++ rest]
  | fuel + 1, c :: rest, acc =>
    if !sep.isEmpty && leadsWith sep (c :: rest) then
      acc.reverse :: jsSplitGo sep fuel (List.drop (sep.length - 1) rest) []
    else
      jsSplitGo sep fuel rest (c :: acc)

/-- JavaScript `s.split(sep)` for a non-empty separator. -/
def jsSplit (s sep : String) : List String :=
  (jsSplitGo sep.data s.data.length s.data []).map List.asString

/-- The decoded claim set produced by a successful credential verification;
the source only ever reads `uid` from it. -/
structure DecodedClaims where
  uid : String
deriving Repr, DecidableEq

/-- The identity-provider verification calls consumed by `verifyAuth`,
modelled as oracles: `verifySessionCookie cookie checkRevoked` and
`verifyIdToken token` return the decoded claims on success and `none` when
verification throws (malformed, expired, revoked, signature mismatch). -/
structure AuthOracle where
  verifySessionCookie : String → Bool → Option DecodedClaims
  verifyIdToken : String → Option DecodedClaims

/-- The slice of an Express request that `verifyAuth` reads:
`req.cookies.session` and `req.headers.authorization`. -/
structure AuthReq where
  sessionCookie : Option String := none
  authorization : Option String := none
deriving Repr, DecidableEq

/-- The outcome of the middleware: either `next()` was called with the
decoded claims attached as `req.user`, or the request was rejected with an
HTTP status and an error body. -/
inductive AuthResult where
  | ok (user : DecodedClaims)
  | reject (status : Nat) (error : String)
deriving Repr, DecidableEq

namespace Organizations

/-- Middleware `verifyAuth` of `routes/organizations.js` (lines 8-35), identical to the
copy in `routes/gyms-routes.js`: session cookie first, revocation-checked
(`verifySessionCookie(sessionCookie, true)`); else an `Authorization` header
starting with `"Bearer "`, whose token is element 1 of the header split on `"Bearer "`;
else a 401.  Any verification throw is caught and answered with a 401. -/
def verifyAuth (o : AuthOracle) (req : AuthReq) : AuthResult :=
  if jsTruthy req.sessionCookie then
    match o.verifySessionCookie (req.sessionCookie.getD "") true with
    | some decodedClaims => .ok decodedClaims
    | none => .reject 401 "Unauthorized - Invalid token"
  else if jsTruthy req.authorization &&
      jsStartsWith (req.authorization.getD "") "Bearer " then
    let idToken := (jsSplit (req.authorization.getD "") "Bearer ").getD 1 ""
    match o.verifyIdToken idToken with
    | some decodedClaims => .ok decodedClaims
    | none => .reject 401 "Unauthorized - Invalid token"
  else
    .reject 401 "Unauthorized - No valid authentication found"

end Organizations

namespace Devices

/-- Middleware `verifyAuth` of `routes/devices.js` (lines 7-29): the same resolution
order as the organizations copy, differing only in the message of the
no-credential rejection. -/
def verifyAuth (o : AuthOracle) (req : AuthReq) : AuthResult :=
  if jsTruthy req.sessionCookie then
    match o.verifySessionCookie (req.sessionCookie.getD "") true with
    | some decodedClaims => .ok decodedClaims
    | none => .reject 401 "Unauthorized - Invalid token"
  else if jsTruthy req.authorization &&
      jsStartsWith (req.authorization.getD "") "Bearer " then
    let idToken := (jsSplit (req.authorization.getD "") "Bearer ").getD 1 ""
    match o.verifyIdToken idToken with
    | some decodedClaims => .ok decodedClaims
    | none => .reject 401 "Unauthorized - Invalid token"
  else
    .reject 401 "Unauthorized"

end Devices

/-- The value of JavaScript `parseInt` on the leading characters of a digit
run, accumulating into `acc`. -/
def digitsPrefixVal : List Char → Nat → Nat
  | c :: rest, acc =>
    if c.isDigit then digitsPrefixVal rest (acc * 10 + (c.toNat - 48)) else acc
  | [], acc => acc

/-- JavaScript `parseInt(s)` restricted to an optional sign followed by a
digit run (further characters are ignored); `none` models `NaN`. -/
def jsParseInt (s : String) : Option Int :=
  match s.data with
  | '-' :: c :: rest =>
    if c.isDigit then some (-(digitsPrefixVal (c :: rest) 0 : Int)) else none
  | '+' :: c :: rest =>
    if c.isDigit then some (digitsPrefixVal (c :: rest) 0 : Int) else none
  | c :: rest =>
    if c.isDigit then some (digitsPrefixVal (c :: rest) 0 : Int) else none
  | [] => none

/-- JavaScript `parseInt` applied to a request-body value: non-string values
(`undefined`, `null`) give `NaN`. -/
def jsParseIntJ : JStr → Option Int
  | .str s => jsParseInt s
  | _ => none

/-- An organization document as shaped by `POST /organizations`
(`organizationData`, `routes/organizations.js` lines 139-148);
`lastModifiedBy` is only ever added by the update handler. -/
structure Organization where
  name : String
  email : String
  phone : String
  address : String
  status : String
  createdAt : String
  updatedAt : String
  createdBy : String
  lastModifiedBy : Option String := none
deriving Repr, DecidableEq

/-- A device document as shaped by `POST /devices` (`deviceData`,
`routes/devices.js` lines 161-178). -/
structure Device where
  deviceName : String
  type : String
  serialNumber : String
  model : String
  manufacturer : String
  organizationId : Option String
  organizationName : String
  status : String
  location : String
  ipAddress : String
  macAddress : String
  createdAt : String
  updatedAt : String
  createdBy : String
  lastModifiedBy : Option String := none
deriving Repr, DecidableEq

/-- A gym document as shaped by `POST /organizations/:orgId/gyms`
(`gymData`, `routes/gyms-routes.js` lines 158-177).  `latitude` and
`longitude` keep the raw request strings: `parseFloat` is abstracted since
the parsed values are stored opaquely and never branched on. -/
structure Gym where
  name : String
  address : String
  phone : String
  email : String
  capacity : Int
  manager : String
  status : String
  openingTime : String
  closingTime : String
  amenities : List String
  latitude : Option String
  longitude : Option String
  members : Int
  monthlyRevenue : Int
  organizationId : String
  createdAt : String
  updatedAt : String
  createdBy : String
  lastModifiedBy : Option String := none
deriving Repr, DecidableEq

/-- An `audit_logs` document, written as a side effect of the delete
handlers; `details` is the snapshot of the deleted document. -/
inductive AuditLog where
  | deleteOrganization (organizationId performedBy timestamp : String)
      (details : Organization)
  | deleteDevice (deviceId performedBy timestamp : String) (details : Device)
  | deleteGym (gymId organizationId performedBy timestamp : String)
      (details : Gym)
deriving Repr, DecidableEq

/-- The Firestore state visible to the embedded handlers: association lists
of documents keyed by document id.  Gyms live in per-organization
subcollections, flattened here as triples `(parent organization id, gym id,
gym document)`. -/
structure Store where
  organizations : List (String × Organization) := []
  devices : List (String × Device) := []
  gyms : List (String × String × Gym) := []
  auditLogs : List AuditLog := []
deriving Repr, DecidableEq

/-- The JSON response envelope used by every handler: an HTTP status plus
the optional fields the source attaches (`success`, `error`, `message`,
`data`, `count`, `details`, `updatedCount`). -/
structure ApiResponse (α : Type) where
  status : Nat := 200
  success : Option Bool := none
  error : Option String := none
  message : Option String := none
  data : Option α := none
  count : Option Nat := none
  details : Option (List String) := none
  updatedCount : Option Nat := none
deriving Repr, DecidableEq

/-- Insert one document into a list already sorted by descending key
(insertion step of the `orderBy(key, "desc")` model). -/
def insertByKeyDesc {α : Type} (key : α → String) (x : String × α) :
    List (String × α) → List (String × α)
  | [] => [x]
  | y :: ys =>
    if key y.2 ≤ key x.2 then x :: y :: ys else y :: insertByKeyDesc key x ys

/-- Firestore `orderBy(key, "desc")` over a document list, modelled as a
stable insertion sort on the string key, descending. -/
def sortByKeyDesc {α : Type} (key : α → String) :
    List (String × α) → List (String × α)
  | [] => []
  | x :: xs => insertByKeyDesc key x (sortByKeyDesc key xs)

namespace Organizations

/-- The query parameters read by `GET /organizations`; `limit` is the
already-parsed integer (`parseInt` of the query string is abstracted),
defaulting to 100 at use sites as in the source. -/
structure Query where
  limit : Option Nat := none
  organizationId : Option String := none
deriving Repr, DecidableEq

/-- The `data` field of an organization-handler response: a single document
object or an array of documents. -/
inductive OrgPayload where
  | single (id : String) (org : Organization)
  | docs (orgs : List (String × Organization))
deriving Repr, DecidableEq

/-- Handler `GET /organizations` (`routes/organizations.js` lines 38-81): when the
`organizationId` query parameter is truthy the handler returns that single
document (404 when absent) and never reaches the ordered, limited,
counted list query; otherwise it lists all organizations ordered by
`createdAt` descending, limited, with a count. -/
def getOrganizations (st : Store) (q : Query) : ApiResponse OrgPayload :=
  if jsTruthy q.organizationId then
    match st.organizations.find? (fun p => p.1 == q.organizationId.getD "") with
    | none => { status := 404, error := some "Organization not found" }
    | some p =>
      { status := 200, success := some true, data := some (.single p.1 p.2) }
  else
    let snapshot :=
      (sortByKeyDesc (fun o => o.createdAt) st.organizations).take
        (q.limit.getD 100)
    { status := 200, success := some true, data := some (.docs snapshot),
      count := some snapshot.length }

/-- The request-body fields read by the organization create and update
handlers. -/
structure OrgBody where
  name : JStr := .jsUndefined
  email : JStr := .jsUndefined
  phone : JStr := .jsUndefined
  address : JStr := .jsUndefined
  status : JStr := .jsUndefined
deriving Repr, DecidableEq

/-- Handler `POST /organizations` (`routes/organizations.js` lines 114-173):
validation (`!name || !email`) with a fixed details message, then the
pre-insert email-uniqueness query, then the insert.  `uid` is
`req.user.uid`, `now` is `new Date().toISOString()`, `newId` the
store-assigned document id. -/
def postOrganizations (uid now newId : String) (st : Store) (body : OrgBody) :
    ApiResponse OrgPayload × Store :=
  if !(body.name.truthy && body.email.truthy) then
    ({ status := 400, error := some "Validation failed",
       details := some ["Name and email are required"] }, st)
  else
    match st.organizations.find? (fun p => p.2.email == body.email.getStr) with
    | some _ =>
      ({ status := 409,
         error := some "Organization with this email already exists" }, st)
    | none =>
      let organizationData : Organization :=
        { name := body.name.getStr
          email := body.email.getStr
          phone := body.phone.orDefault ""
          address := body.address.orDefault ""
          status := body.status.orDefault "active"
          createdAt := now
          updatedAt := now
          createdBy := uid }
      ({ status := 201, success := some true,
         message := some "Organization created successfully",
         data := some (.single newId organizationData) },
       { st with
         organizations := st.organizations ++ [(newId, organizationData)] })

/-- The `updateData` merge of `PUT /organizations/:id`
(`routes/organizations.js` lines 192-202) applied to the stored document:
`name`, `email`, `status` under truthiness checks, `phone`, `address` under
`!== undefined` presence checks (a `null` body value for those two is
collapsed to the empty string by this model; no claim exercises it). -/
def orgUpdateData (uid now : String) (body : OrgBody) (doc : Organization) :
    Organization :=
  let o := { doc with updatedAt := now, lastModifiedBy := some uid }
  let o := if body.name.truthy then { o with name := body.name.getStr } else o
  let o := if body.email.truthy then { o with email := body.email.getStr } else o
  let o := if body.phone.isDefined then { o with phone := body.phone.getStr } else o
  let o :=
    if body.address.isDefined then { o with address := body.address.getStr } else o
  if body.status.truthy then { o with status := body.status.getStr } else o

/-- Handler `PUT /organizations/:id` (`routes/organizations.js` lines 176-227):
existence check, merge of the present body fields (no email-uniqueness
re-check appears anywhere in this handler), update, and the updated document
echoed back. -/
def putOrganization (uid now : String) (st : Store) (id : String)
    (body : OrgBody) : ApiResponse OrgPayload × Store :=
  match st.organizations.find? (fun p => p.1 == id) with
  | none =>
    ({ status := 404, success := some false,
       error := some "Organization not found" }, st)
  | some p =>
    let updated := orgUpdateData uid now body p.2
    ({ status := 200, success := some true,
       message := some "Organization updated successfully",
       data := some (.single id updated) },
     { st with
       organizations :=
         st.organizations.map (fun q => if q.1 == id then (q.1, updated) else q) })

/-- Handler `DELETE /organizations/:id` (`routes/organizations.js` lines 230-283):
existence check, then a query for any device whose `organizationId` equals
the organization id — a hit answers 409 before anything is written —
otherwise the document is deleted and an audit-log entry appended. -/
def deleteOrganization (uid now : String) (st : Store) (id : String) :
    ApiResponse OrgPayload × Store :=
  match st.organizations.find? (fun p => p.1 == id) with
  | none =>
    ({ status := 404, success := some false,
       error := some "Organization not found" }, st)
  | some p =>
    if (st.devices.find? (fun d => d.2.organizationId == some id)).isSome then
      ({ status := 409,
         error := some "Cannot delete organization with associated devices",
         message := some "Please reassign or delete all devices first" }, st)
    else
      ({ status := 200, success := some true,
         message := some "Organization deleted successfully" },
       { st with
         organizations := st.organizations.filter (fun q => q.1 != id),
         auditLogs := st.auditLogs ++ [.deleteOrganization id uid now p.2] })

end Organizations

namespace Devices

/-- The request-body fields read by the device create and update handlers. -/
structure DeviceBody where
  deviceName : JStr := .jsUndefined
  type : JStr := .jsUndefined
  serialNumber : JStr := .jsUndefined
  model : JStr := .jsUndefined
  manufacturer : JStr := .jsUndefined
  organizationId : JStr := .jsUndefined
  status : JStr := .jsUndefined
  location : JStr := .jsUndefined
  ipAddress : JStr := .jsUndefined
  macAddress : JStr := .jsUndefined
deriving Repr, DecidableEq

/-- Handler `POST /devices` (`routes/devices.js` lines 115-203): validation
(`!deviceName || !type || !serialNumber`) with a fixed details message, the
pre-insert serial-number uniqueness query, the organization existence check
when an `organizationId` is supplied, then the insert. -/
def postDevices (uid now newId : String) (st : Store) (body : DeviceBody) :
    ApiResponse (String × Device) × Store :=
  if !(body.deviceName.truthy && body.type.truthy && body.serialNumber.truthy)
  then
    ({ status := 400, error := some "Validation failed",
       details := some ["Device name, type, and serial number are required"] },
     st)
  else
    match st.devices.find?
        (fun p => p.2.serialNumber == body.serialNumber.getStr) with
    | some _ =>
      ({ status := 409,
         error := some "Device with this serial number already exists" }, st)
    | none =>
      let mk (oid : Option String) (orgName : String) :
          ApiResponse (String × Device) × Store :=
        let deviceData : Device :=
          { deviceName := body.deviceName.getStr
            type := body.type.getStr
            serialNumber := body.serialNumber.getStr
            model := body.model.orDefault ""
            manufacturer := body.manufacturer.orDefault ""
            organizationId := oid
            organizationName := orgName
            status := body.status.orDefault "active"
            location := body.location.orDefault ""
            ipAddress := body.ipAddress.orDefault ""
            macAddress := body.macAddress.orDefault ""
            createdAt := now
            updatedAt := now
            createdBy := uid }
        ({ status := 201, success := some true,
           message := some "Device created successfully",
           data := some (newId, deviceData) },
         { st with devices := st.devices ++ [(newId, deviceData)] })
      if body.organizationId.truthy then
        match st.organizations.find?
            (fun p => p.1 == body.organizationId.getStr) with
        | none => ({ status := 404, error := some "Organization not found" }, st)
        | some orgp => mk (some body.organizationId.getStr) orgp.2.name
      else
        mk none "Unassigned"

/-- The `updateData` merge of `PUT /devices/:id` (`routes/devices.js`
lines 248-261) applied to the stored document — the organization-assignment
fields of lines 264-276 are handled by `putDevice` itself.  `deviceName`,
`type`, `serialNumber`, `status` use truthiness checks; `model`,
`manufacturer`, `location`, `ipAddress`, `macAddress` use `!== undefined`
presence checks (a `null` body value for those is collapsed to the empty
string by this model; no claim exercises it). -/
def deviceUpdateData (uid now : String) (body : DeviceBody) (doc : Device) :
    Device :=
  let d := { doc with updatedAt := now, lastModifiedBy := some uid }
  let d :=
    if body.deviceName.truthy then { d with deviceName := body.deviceName.getStr }
    else d
  let d := if body.type.truthy then { d with type := body.type.getStr } else d
  let d :=
    if body.serialNumber.truthy then
      { d with serialNumber := body.serialNumber.getStr }
    else d
  let d := if body.model.isDefined then { d with model := body.model.getStr } else d
  let d :=
    if body.manufacturer.isDefined then
      { d with manufacturer := body.manufacturer.getStr }
    else d
  let d := if body.status.truthy then { d with status := body.status.getStr } else d
  let d :=
    if body.location.isDefined then { d with location := body.location.getStr }
    else d
  let d :=
    if body.ipAddress.isDefined then { d with ipAddress := body.ipAddress.getStr }
    else d
  if body.macAddress.isDefined then { d with macAddress := body.macAddress.getStr }
  else d

/-- Handler `PUT /devices/:id` (`routes/devices.js` lines 206-301): existence check;
when the body carries a truthy `serialNumber` different from the stored one,
the uniqueness query runs again (the current record cannot match it, since
its stored serial differs) and a hit answers 409; then the field merge, the
organization-assignment handling (existing organization required for a
truthy id, `null`/empty resets to `"Unassigned"`), and the update. -/
def putDevice (uid now : String) (st : Store) (id : String)
    (body : DeviceBody) : ApiResponse (String × Device) × Store :=
  match st.devices.find? (fun p => p.1 == id) with
  | none =>
    ({ status := 404, success := some false, error := some "Device not found" },
     st)
  | some p =>
    if body.serialNumber.truthy && body.serialNumber.getStr != p.2.serialNumber
        && (st.devices.find?
              (fun q => q.2.serialNumber == body.serialNumber.getStr)).isSome
    then
      ({ status := 409,
         error := some "Device with this serial number already exists" }, st)
    else
      let commit (upd : Device) : ApiResponse (String × Device) × Store :=
        ({ status := 200, success := some true,
           message := some "Device updated successfully",
           data := some (id, upd) },
         { st with
           devices := st.devices.map (fun q => if q.1 == id then (q.1, upd) else q) })
      let d := deviceUpdateData uid now body p.2
      if body.organizationId.isDefined then
        if body.organizationId.truthy then
          match st.organizations.find?
              (fun q => q.1 == body.organizationId.getStr) with
          | none => ({ status := 404, error := some "Organization not found" }, st)
          | some orgp =>
            commit { d with organizationId := some body.organizationId.getStr,
                            organizationName := orgp.2.name }
        else
          commit { d with organizationId := none,
                          organizationName := "Unassigned" }
      else
        commit d

/-- The request body of `POST /devices/bulk-assign`. -/
structure BulkBody where
  deviceIds : Option (List String) := none
  organizationId : JStr := .jsUndefined
deriving Repr, DecidableEq

/-- Handler `POST /devices/bulk-assign` (`routes/devices.js` lines 344-399): the
device-id list must be a non-empty array; a truthy `organizationId` must
name an existing organization, whose display name is resolved once
(`"Unassigned"` otherwise); each listed id is checked for existence and only
existing devices are staged into the batch, which commits atomically; the
reported `updatedCount` is the number of staged ids. -/
def bulkAssign (uid now : String) (st : Store) (body : BulkBody) :
    ApiResponse Unit × Store :=
  match body.deviceIds with
  | none => ({ status := 400, error := some "Device IDs array is required" }, st)
  | some deviceIds =>
    if deviceIds.isEmpty then
      ({ status := 400, error := some "Device IDs array is required" }, st)
    else
      let run (organizationName : String) : ApiResponse Unit × Store :=
        let updatedDevices :=
          deviceIds.filter
            (fun did => (st.devices.find? (fun p => p.1 == did)).isSome)
        let newDevices :=
          st.devices.map (fun p =>
            if updatedDevices.contains p.1 then
              (p.1,
               { p.2 with
                 organizationId :=
                   if body.organizationId.truthy then
                     some body.organizationId.getStr
                   else none,
                 organizationName := organizationName,
                 updatedAt := now,
                 lastModifiedBy := some uid })
            else p)
        ({ status := 200, success := some true,
           message := some ("Successfully assigned " ++
             toString updatedDevices.length ++ " devices"),
           updatedCount := some updatedDevices.length },
         { st with devices := newDevices })
      if body.organizationId.truthy then
        match st.organizations.find?
            (fun q => q.1 == body.organizationId.getStr) with
        | none => ({ status := 404, error := some "Organization not found" }, st)
        | some orgp => run orgp.2.name
      else
        run "Unassigned"

end Devices

namespace Gyms

/-- The request-body fields read by the gym create handler.  `capacity` is
carried as the raw body value (the handler itself applies `parseInt`);
`amenities` is an optional array; `latitude` and `longitude` stay raw
strings (`parseFloat` abstracted, see `Gym`). -/
structure GymBody where
  name : JStr := .jsUndefined
  address : JStr := .jsUndefined
  phone : JStr := .jsUndefined
  email : JStr := .jsUndefined
  capacity : JStr := .jsUndefined
  manager : JStr := .jsUndefined
  status : JStr := .jsUndefined
  openingTime : JStr := .jsUndefined
  closingTime : JStr := .jsUndefined
  amenities : Option (List String) := none
  latitude : JStr := .jsUndefined
  longitude : JStr := .jsUndefined
deriving Repr, DecidableEq

/-- Dynamic indexing `req.body[field]` for the field names the gym create
handler looks up. -/
def GymBody.field (b : GymBody) : String → JStr
  | "name" => b.name
  | "address" => b.address
  | "phone" => b.phone
  | "email" => b.email
  | "capacity" => b.capacity
  | "manager" => b.manager
  | _ => .jsUndefined

/-- The `requiredFields` list of `POST /organizations/:orgId/gyms`
(`routes/gyms-routes.js` line 134). -/
def requiredFields : List String :=
  ["name", "address", "phone", "email", "capacity", "manager"]

/-- Handler `GET /organizations/:orgId/gyms` (`routes/gyms-routes.js` lines 38-93):
a missing parent organization is answered 200 with an empty array, count 0
and an explanatory message rather than a 404; a parent with no gyms gets the
same shape with a different message; otherwise the gyms subcollection is
listed ordered by `createdAt` descending with a limit and count. -/
def listGyms (st : Store) (orgId : String) (limit : Option Nat) :
    ApiResponse (List (String × Gym)) :=
  if (st.organizations.find? (fun p => p.1 == orgId)).isNone then
    { status := 200, success := some true, data := some [], count := some 0,
      message := some "No gyms found (organization doesn\x27t exist yet)" }
  else
    let pairs := (st.gyms.filter (fun t => t.1 == orgId)).map
      (fun t => (t.2.1, t.2.2))
    let snapshot :=
      (sortByKeyDesc (fun g => g.createdAt) pairs).take (limit.getD 100)
    if snapshot.isEmpty then
      { status := 200, success := some true, data := some [], count := some 0,
        message := some "No gyms found" }
    else
      { status := 200, success := some true, data := some snapshot,
        count := some snapshot.length }

/-- Handler `POST /organizations/:orgId/gyms` (`routes/gyms-routes.js`
lines 128-204): the missing-field computation
(`requiredFields.filter(field => !req.body[field])`) names every missing
field in `details`; then the parent organization must exist (no
auto-create); then the insert into the subcollection. -/
def postGym (uid now newId : String) (st : Store) (orgId : String)
    (body : GymBody) : ApiResponse (String × Gym) × Store :=
  let missingFields := requiredFields.filter (fun f => !(body.field f).truthy)
  if !missingFields.isEmpty then
    ({ status := 400, success := some false, error := some "Validation failed",
       details := some (missingFields.map (fun f => f ++ " is required")) }, st)
  else if (st.organizations.find? (fun p => p.1 == orgId)).isNone then
    ({ status := 404, success := some false,
       error := some "Organization not found. Please create the organization first." },
     st)
  else
    let gymData : Gym :=
      { name := body.name.getStr
        address := body.address.getStr
        phone := body.phone.getStr
        email := body.email.getStr
        capacity := (jsParseIntJ body.capacity).getD 0
        manager := body.manager.getStr
        status := body.status.orDefault "ACTIVE"
        openingTime := body.openingTime.orDefault ""
        closingTime := body.closingTime.orDefault ""
        amenities := body.amenities.getD []
        latitude := if body.latitude.truthy then some body.latitude.getStr else none
        longitude := if body.longitude.truthy then some body.longitude.getStr else none
        members := 0
        monthlyRevenue := 0
        organizationId := orgId
        createdAt := now
        updatedAt := now
        createdBy := uid }
    ({ status := 201, success := some true,
       message := some "Gym created successfully",
       data := some (newId, gymData) },
     { st with gyms := st.gyms ++ [(orgId, newId, gymData)] })

end Gyms

/-! Concrete fixtures used to instantiate the theorems below. -/

/-- A sample organization document. -/
def orgAcme : Organization :=
  { name := "Acme", email := "a@acme.com", phone := "", address := "",
    status := "active", createdAt := "2024-01-01T00:00:00.000Z",
    updatedAt := "2024-01-01T00:00:00.000Z", createdBy := "u0" }

/-- A second sample organization document with a different email. -/
def orgBeta : Organization :=
  { name := "Beta", email := "b@beta.com", phone := "", address := "",
    status := "active", createdAt := "2024-02-01T00:00:00.000Z",
    updatedAt := "2024-02-01T00:00:00.000Z", createdBy := "u0" }

/-- A sample device document, assigned to `org1`. -/
def deviceOne : Device :=
  { deviceName := "Sensor A", type := "sensor", serialNumber := "SN-1",
    model := "", manufacturer := "", organizationId := some "org1",
    organizationName := "Acme", status := "active", location := "",
    ipAddress := "", macAddress := "",
    createdAt := "2024-03-01T00:00:00.000Z",
    updatedAt := "2024-03-01T00:00:00.000Z", createdBy := "u0" }

/-- A second sample device document holding serial number `SN-2`. -/
def deviceTwo : Device :=
  { deviceName := "Sensor B", type := "sensor", serialNumber := "SN-2",
    model := "", manufacturer := "", organizationId := none,
    organizationName := "Unassigned", status := "active", location := "",
    ipAddress := "", macAddress := "",
    createdAt := "2024-03-02T00:00:00.000Z",
    updatedAt := "2024-03-02T00:00:00.000Z", createdBy := "u0" }

/-- A small concrete store: two organizations and two devices, the first
device assigned to `org1`. -/
def demoStore : Store :=
  { organizations := [("org1", orgAcme), ("org2", orgBeta)],
    devices := [("d1", deviceOne), ("d2", deviceTwo)] }

/-- An identity-provider in which every verification fails. -/
def rejectAllOracle : AuthOracle :=
  { verifySessionCookie := fun _ _ => none, verifyIdToken := fun _ => none }

/-- An identity-provider that accepts exactly the session cookie `cookie1`
under revocation checking, and no ID token. -/
def cookieOracle : AuthOracle :=
  { verifySessionCookie := fun c checkRevoked =>
      if c == "cookie1" && checkRevoked then some { uid := "u7" } else none,
    verifyIdToken := fun _ => none }

/-- An identity-provider that accepts exactly the ID token `xBearer y` (a
token that itself contains the substring `Bearer `) and no session cookie. -/
def oddTokenOracle : AuthOracle :=
  { verifySessionCookie := fun _ _ => none,
    verifyIdToken := fun t => if t == "xBearer y" then some { uid := "u1" } else none }

/-- The remainder of an `Authorization` header after the seven-character
prefix `"Bearer "` — the token the spec says is extracted and verified. -/
def bearerRemainder (h : String) : String :=
  (h.data.drop "Bearer ".data.length).asString

/-- The request body `{status: "inactive"}` for an organization update. -/
def statusOnlyOrgBody : Organizations.OrgBody := { status := .str "inactive" }

/-- The request body `{status: "inactive"}` for a device update. -/
def statusOnlyDeviceBody : Devices.DeviceBody := { status := .str "inactive" }

/-- A device-creation body in which exactly the required field `type` is
missing. -/
def bodyMissingType : Devices.DeviceBody :=
  { deviceName := .str "Sensor C", serialNumber := .str "SN-9" }

/-- A device-creation body in which exactly the required field `deviceName`
is missing. -/
def bodyMissingName : Devices.DeviceBody :=
  { type := .str "sensor", serialNumber := .str "SN-9" }

/-- C9: listing gyms under an organization id that does not exist in the
store answers 200 with `success: true`, an empty data array, count 0 and an
explanatory message — never a 404 — and that message differs from the one
returned when the parent exists but has no gyms, distinguishing the two
cases. -/
theorem c9_theorem (st : Store) (orgId : String) (limit : Option Nat) :
    (st.organizations.find? (fun p => p.1 == orgId) = none →
      Gyms.listGyms st orgId limit =
        { status := 200, success := some true, data := some [], count := some 0,
          message := some "No gyms found (organization doesn\x27t exist yet)" }) ∧
    (∀ p, st.organizations.find? (fun p2 => p2.1 == orgId) = some p →
      st.gyms.filter (fun t => t.1 == orgId) = [] →
      Gyms.listGyms st orgId limit =
        { status := 200, success := some true, data := some [], count := some 0,
          message := some "No gyms found" }) ∧
    some "No gyms found (organization doesn\x27t exist yet)" ≠
      (some "No gyms found" : Option String) := by
  refine ⟨fun h1 => ?_, fun p h2 hempty => ?_, by decide⟩
  · simp [Gyms.listGyms, h1]
  · simp [Gyms.listGyms, h2, hempty, sortByKeyDesc]

/-- C9 witness: on a store with no organizations the gym list for `orgX` is
the 200 empty-array response with the explanatory message. -/
theorem c9_witness :
    Gyms.listGyms {} "orgX" none =
      { status := 200, success := some true, data := some [], count := some 0,
        message := some "No gyms found (organization doesn\x27t exist yet)" } :=
  (c9_theorem {} "orgX" none).1 (by decide)

/-- C10: when `GET /organizations` receives a truthy `organizationId` query
parameter it does not filter the list: the response is independent of the
`limit` parameter, is a 404 when no organization has that id, and otherwise
carries the single document as a non-array `data` object with no `count`
(the `docs` list constructor and `count` field stay unused). -/
theorem c10_theorem (st : Store) (q : Organizations.Query)
    (htru : jsTruthy q.organizationId = true) :
    (∀ l, Organizations.getOrganizations st { q with limit := l } =
        Organizations.getOrganizations st q) ∧
    (st.organizations.find? (fun p => p.1 == q.organizationId.getD "") = none →
      Organizations.getOrganizations st q =
        { status := 404, error := some "Organization not found" }) ∧
    (∀ p, st.organizations.find? (fun p2 => p2.1 == q.organizationId.getD "") =
        some p →
      Organizations.getOrganizations st q =
        { status := 200, success := some true,
          data := some (.single p.1 p.2) }) := by
  refine ⟨fun l => ?_, fun h => ?_, fun p h => ?_⟩
  · simp [Organizations.getOrganizations, htru]
  · simp [Organizations.getOrganizations, htru, h]
  · simp [Organizations.getOrganizations, htru, h]

/-- C10 witness: on the demo store, `GET /organizations?organizationId=org1`
returns the single `org1` document regardless of the `limit` parameter. -/
theorem c10_witness :
    (Organizations.getOrganizations demoStore
        { limit := some 1, organizationId := some "org1" } =
      Organizations.getOrganizations demoStore
        { organizationId := some "org1" }) ∧
    Organizations.getOrganizations demoStore { organizationId := some "org1" } =
      { status := 200, success := some true,
        data := some (.single "org1" orgAcme) } := by
  have h := c10_theorem demoStore { organizationId := some "org1" } (by decide)
  exact ⟨h.1 (some 1), h.2.2 ("org1", orgAcme) (by decide)⟩

/-- C6: deleting an organization that exists and is referenced by at least
one device (its `organizationId` equals the organization id) answers 409 and
leaves the entire store — in particular the organization document —
unchanged: deletion is blocked, not cascaded. -/
theorem c6_theorem (uid now : String) (st : Store) (id : String)
    (p : String × Organization)
    (hfound : st.organizations.find? (fun q => q.1 == id) = some p)
    (hdev : ∃ d ∈ st.devices, d.2.organizationId = some id) :
    Organizations.deleteOrganization uid now st id =
      ({ status := 409,
         error := some "Cannot delete organization with associated devices",
         message := some "Please reassign or delete all devices first" }, st) := by
  have hsome : (st.devices.find? (fun d => d.2.organizationId == some id)).isSome := by
    obtain ⟨d, hd, he⟩ := hdev
    exact List.find?_isSome.mpr ⟨d, hd, by simp [he]⟩
  simp [Organizations.deleteOrganization, hfound, hsome]

/-- C6 witness: deleting `org1` from the demo store, where device `d1`
references it, answers 409 and keeps the store intact. -/
theorem c6_witness :
    Organizations.deleteOrganization "u1" "t1" demoStore "org1" =
      ({ status := 409,
         error := some "Cannot delete organization with associated devices",
         message := some "Please reassign or delete all devices first" },
       demoStore) :=
  c6_theorem "u1" "t1" demoStore "org1" ("org1", orgAcme) (by decide)
    ⟨("d1", deviceOne), by decide, by decide⟩

/-- C4 counterexample: a device-creation body missing exactly `type` and one
missing exactly `deviceName` both get a 400 whose `details` is the same
fixed sentence naming all three required fields.  Since the details are
byte-identical for different missing-field sets, they do not name the
missing fields; in particular creating a device without `type` is not
answered with a 400 listing `type` as the missing field. -/
theorem c4_counterexample :
    bodyMissingType.type.truthy = false ∧
    bodyMissingType.deviceName.truthy = true ∧
    bodyMissingType.serialNumber.truthy = true ∧
    bodyMissingName.deviceName.truthy = false ∧
    bodyMissingName.type.truthy = true ∧
    bodyMissingName.serialNumber.truthy = true ∧
    (Devices.postDevices "u1" "t1" "d9" {} bodyMissingType).1.status = 400 ∧
    (Devices.postDevices "u1" "t1" "d9" {} bodyMissingType).1.details =
      some ["Device name, type, and serial number are required"] ∧
    (Devices.postDevices "u1" "t1" "d9" {} bodyMissingType).1.details =
      (Devices.postDevices "u1" "t1" "d9" {} bodyMissingName).1.details := by
  decide

/-- C4 amended: gym creation answers 400 naming each missing required field
individually (all of them, not just the first); device and organization
creation answer 400 with a fixed `details` sentence naming all required
fields regardless of which are missing.  In every case nothing is
persisted. -/
theorem c4_theorem (uid now newId : String) (stG : Store) (orgId : String)
    (bodyG : Gyms.GymBody) (stD : Store) (bodyD : Devices.DeviceBody)
    (stO : Store) (bodyO : Organizations.OrgBody) :
    (Gyms.requiredFields.filter (fun f => !(bodyG.field f).truthy) ≠ [] →
      Gyms.postGym uid now newId stG orgId bodyG =
        ({ status := 400, success := some false,
           error := some "Validation failed",
           details := some ((Gyms.requiredFields.filter
               (fun f => !(bodyG.field f).truthy)).map
             (fun f => f ++ " is required")) },
         stG)) ∧
    ((bodyD.deviceName.truthy && bodyD.type.truthy &&
        bodyD.serialNumber.truthy) = false →
      Devices.postDevices uid now newId stD bodyD =
        ({ status := 400, error := some "Validation failed",
           details := some ["Device name, type, and serial number are required"] },
         stD)) ∧
    ((bodyO.name.truthy && bodyO.email.truthy) = false →
      Organizations.postOrganizations uid now newId stO bodyO =
        ({ status := 400, error := some "Validation failed",
           details := some ["Name and email are required"] }, stO)) := by
  refine ⟨fun h => ?_, fun h => ?_, fun h => ?_⟩
  · match hm : Gyms.requiredFields.filter (fun f => !(bodyG.field f).truthy) with
    | [] => exact absurd hm h
    | x :: xs => simp [Gyms.postGym, hm]
  · simp [Devices.postDevices, h]
  · simp [Organizations.postOrganizations, h]

/-- C4 amended witness: a gym-creation body carrying only `name` is answered
400 with details naming all five missing required fields. -/
theorem c4_witness :
    Gyms.postGym "u1" "t1" "g1" {} "org1" { name := .str "Gym A" } =
      ({ status := 400, success := some false,
         error := some "Validation failed",
         details := some ["address is required", "phone is required",
           "email is required", "capacity is required", "manager is required"] },
       ({} : Store)) :=
 by
  have h := c4_theorem "u1" "t1" "g1" {} "org1" { name := .str "Gym A" } {} {} {} {}
  exact (h.1 (by decide)).trans (by decide)

/-- C8: a create request whose designated uniqueness field matches a record
already in the store — organization email, device serial number — is
answered 409 and the store is returned unchanged, whatever the other fields
of the body or of the existing record are (both are universally
quantified). -/
theorem c8_theorem (uid now newId : String) (stO : Store)
    (bodyO : Organizations.OrgBody) (stD : Store)
    (bodyD : Devices.DeviceBody) :
    (bodyO.name.truthy = true → bodyO.email.truthy = true →
     (∃ p ∈ stO.organizations, p.2.email = bodyO.email.getStr) →
     Organizations.postOrganizations uid now newId stO bodyO =
       ({ status := 409,
          error := some "Organization with this email already exists" }, stO)) ∧
    (bodyD.deviceName.truthy = true → bodyD.type.truthy = true →
     bodyD.serialNumber.truthy = true →
     (∃ p ∈ stD.devices, p.2.serialNumber = bodyD.serialNumber.getStr) →
     Devices.postDevices uid now newId stD bodyD =
       ({ status := 409,
          error := some "Device with this serial number already exists" }, stD)) := by
  constructor
  · intro h1 h2 hex
    have hsome :
        (stO.organizations.find? (fun p => p.2.email == bodyO.email.getStr)).isSome := by
      obtain ⟨p, hp, he⟩ := hex
      exact List.find?_isSome.mpr ⟨p, hp, by simp [he]⟩
    obtain ⟨p, hp⟩ := Option.isSome_iff_exists.mp hsome
    simp [Organizations.postOrganizations, h1, h2, hp]
  · intro h1 h2 h3 hex
    have hsome :
        (stD.devices.find? (fun p => p.2.serialNumber == bodyD.serialNumber.getStr)).isSome := by
      obtain ⟨p, hp, he⟩ := hex
      exact List.find?_isSome.mpr ⟨p, hp, by simp [he]⟩
    obtain ⟨p, hp⟩ := Option.isSome_iff_exists.mp hsome
    simp [Devices.postDevices, h1, h2, h3, hp]

/-- C8 witness: on the demo store, recreating the `a@acme.com` email under a
different name and recreating serial `SN-1` under a different device name
both answer 409 and persist nothing. -/
theorem c8_witness :
    (Organizations.postOrganizations "u1" "t1" "n9" demoStore
        { name := .str "Acme Two", email := .str "a@acme.com" } =
      ({ status := 409,
         error := some "Organization with this email already exists" },
       demoStore)) ∧
    (Devices.postDevices "u1" "t1" "n9" demoStore
        { deviceName := .str "Other", type := .str "camera",
          serialNumber := .str "SN-1" } =
      ({ status := 409,
         error := some "Device with this serial number already exists" },
       demoStore)) := by
  have h := c8_theorem "u1" "t1" "n9" demoStore
    { name := .str "Acme Two", email := .str "a@acme.com" } demoStore
    { deviceName := .str "Other", type := .str "camera",
      serialNumber := .str "SN-1" }
  exact ⟨h.1 (by decide) (by decide) ⟨("org1", orgAcme), by decide, by decide⟩,
    h.2 (by decide) (by decide) (by decide)
      ⟨("d1", deviceOne), by decide, by decide⟩⟩

/-- C5: an update whose body is exactly `{status: "inactive"}` rewrites the
stored record to the old record with only `status`, `updatedAt` and
`lastModifiedBy` replaced — the record-update expressions say every other
field is carried over unchanged — for organizations and for devices, and
touches no other document of the store. -/
theorem c5_theorem (uid now : String) (stO : Store) (idO : String)
    (pO : String × Organization) (stD : Store) (idD : String)
    (pD : String × Device) :
    (stO.organizations.find? (fun q => q.1 == idO) = some pO →
      Organizations.putOrganization uid now stO idO statusOnlyOrgBody =
        ({ status := 200, success := some true,
           message := some "Organization updated successfully",
           data := some (.single idO
             { pO.2 with status := "inactive", updatedAt := now,
                         lastModifiedBy := some uid }) },
         { stO with
           organizations := stO.organizations.map (fun q =>
             if q.1 == idO then
               (q.1, { pO.2 with status := "inactive", updatedAt := now,
                                 lastModifiedBy := some uid })
             else q) })) ∧
    (stD.devices.find? (fun q => q.1 == idD) = some pD →
      Devices.putDevice uid now stD idD statusOnlyDeviceBody =
        ({ status := 200, success := some true,
           message := some "Device updated successfully",
           data := some (idD,
             { pD.2 with status := "inactive", updatedAt := now,
                         lastModifiedBy := some uid }) },
         { stD with
           devices := stD.devices.map (fun q =>
             if q.1 == idD then
               (q.1, { pD.2 with status := "inactive", updatedAt := now,
                                 lastModifiedBy := some uid })
             else q) })) := by
  have hie : ("inactive" : String).isEmpty = false := by decide
  constructor
  · intro hfound
    simp [Organizations.putOrganization, hfound, Organizations.orgUpdateData,
      statusOnlyOrgBody, JStr.truthy, JStr.isDefined, JStr.getStr, hie]
  · intro hfound
    simp [Devices.putDevice, hfound, Devices.deviceUpdateData,
      statusOnlyDeviceBody, JStr.truthy, JStr.isDefined, JStr.getStr, hie]

/-- C5 witness: on the demo store, `{status: "inactive"}` updates of `org1`
and `d1` leave every field of `orgAcme` and `deviceOne` except `status`,
`updatedAt` and `lastModifiedBy` in place. -/
theorem c5_witness :
    Organizations.putOrganization "u1" "t9" demoStore "org1" statusOnlyOrgBody =
      ({ status := 200, success := some true,
         message := some "Organization updated successfully",
         data := some (.single "org1"
           { orgAcme with status := "inactive", updatedAt := "t9",
                          lastModifiedBy := some "u1" }) },
       { demoStore with
         organizations := demoStore.organizations.map (fun q =>
           if q.1 == "org1" then
             (q.1, { orgAcme with status := "inactive", updatedAt := "t9",
                                  lastModifiedBy := some "u1" })
           else q) }) ∧
    Devices.putDevice "u1" "t9" demoStore "d1" statusOnlyDeviceBody =
      ({ status := 200, success := some true,
         message := some "Device updated successfully",
         data := some ("d1",
           { deviceOne with status := "inactive", updatedAt := "t9",
                            lastModifiedBy := some "u1" }) },
       { demoStore with
         devices := demoStore.devices.map (fun q =>
           if q.1 == "d1" then
             (q.1, { deviceOne with status := "inactive", updatedAt := "t9",
                                    lastModifiedBy := some "u1" })
           else q) }) := by
  have h := c5_theorem "u1" "t9" demoStore "org1" ("org1", orgAcme)
    demoStore "d1" ("d1", deviceOne)
  exact ⟨h.1 (by decide), h.2 (by decide)⟩

/-- C3 counterexample: `org2` (a record other than `org1`) already holds the
email `b@beta.com`, yet updating `org1` with `{email: "b@beta.com"}` is
answered 200 — not 409 — and the duplicate email is applied to `org1`: the
organization update handler runs no email-uniqueness re-check. -/
theorem c3_counterexample :
    demoStore.organizations.find? (fun p => p.1 == "org2") =
      some ("org2", orgBeta) ∧
    orgBeta.email = "b@beta.com" ∧
    (Organizations.putOrganization "u1" "t9" demoStore "org1"
        { email := .str "b@beta.com" }).1.status = 200 ∧
    ((Organizations.putOrganization "u1" "t9" demoStore "org1"
        { email := .str "b@beta.com" }).2.organizations.find?
      (fun p => p.1 == "org1")).map (fun p => p.2.email) =
        some "b@beta.com" := by
  decide

/-- C3 amended: the device update handler re-runs the serial-number
uniqueness query when the body changes the serial to a different value,
answering 409 without writing when any record holds the new value (the
current record cannot be that hit, since its stored serial differs), and an
unchanged serial never draws a 409; the organization update handler has no
email-uniqueness re-check at all — with the target present it answers 200
and applies the merge whatever emails the other records hold. -/
theorem c3_theorem (uid now : String) (stD : Store) (idD : String)
    (bodyD : Devices.DeviceBody) (pD : String × Device)
    (stO : Store) (idO : String) (bodyO : Organizations.OrgBody)
    (pO : String × Organization) :
    (stD.devices.find? (fun q => q.1 == idD) = some pD →
     bodyD.serialNumber.truthy = true →
     bodyD.serialNumber.getStr ≠ pD.2.serialNumber →
     (∃ q ∈ stD.devices, q.2.serialNumber = bodyD.serialNumber.getStr) →
     Devices.putDevice uid now stD idD bodyD =
       ({ status := 409,
          error := some "Device with this serial number already exists" },
        stD)) ∧
    (stD.devices.find? (fun q => q.1 == idD) = some pD →
     bodyD.serialNumber.truthy = true →
     bodyD.serialNumber.getStr = pD.2.serialNumber →
     (Devices.putDevice uid now stD idD bodyD).1.status ≠ 409) ∧
    (stO.organizations.find? (fun q => q.1 == idO) = some pO →
     Organizations.putOrganization uid now stO idO bodyO =
       ({ status := 200, success := some true,
          message := some "Organization updated successfully",
          data := some (.single idO
            (Organizations.orgUpdateData uid now bodyO pO.2)) },
        { stO with
          organizations := stO.organizations.map (fun q =>
            if q.1 == idO then
              (q.1, Organizations.orgUpdateData uid now bodyO pO.2)
            else q) })) := by
  refine ⟨fun hfound htru hne hex => ?_, fun hfound htru heq => ?_,
    fun hfound => ?_⟩
  · have hsome :
        (stD.devices.find?
          (fun q => q.2.serialNumber == bodyD.serialNumber.getStr)).isSome := by
      obtain ⟨q, hq, he⟩ := hex
      exact List.find?_isSome.mpr ⟨q, hq, by simp [he]⟩
    simp [Devices.putDevice, hfound, htru, hne, hsome]
  · have hbne : (bodyD.serialNumber.getStr != pD.2.serialNumber) = false := by
      simp [heq]
    simp only [Devices.putDevice, hfound, hbne, Bool.and_false, Bool.false_and,
      Bool.false_eq_true, if_false]
    split
    · split
      · split <;> simp
      · simp
    · simp
  · simp [Organizations.putOrganization, hfound]

/-- C3 amended witness: on the demo store, changing device `d1` from `SN-1`
to `SN-2` — held by `d2` — answers 409 with nothing written, while changing
organization `org1` to the email already held by `org2` sails through with
a 200. -/
theorem c3_witness :
    (Devices.putDevice "u1" "t9" demoStore "d1"
        { serialNumber := .str "SN-2" } =
      ({ status := 409,
         error := some "Device with this serial number already exists" },
       demoStore)) ∧
    (Organizations.putOrganization "u1" "t9" demoStore "org1"
        { email := .str "b@beta.com" }).1.status = 200 := by
  have h := c3_theorem "u1" "t9" demoStore "d1"
    { serialNumber := .str "SN-2" } ("d1", deviceOne) demoStore "org1"
    { email := .str "b@beta.com" } ("org1", orgAcme)
  refine ⟨h.1 (by decide) (by decide) (by decide)
    ⟨("d2", deviceTwo), by decide, by decide⟩, ?_⟩
  rw [h.2.2 (by decide)]

/-- C1 counterexample: for the header `Bearer xBearer y` with no session
cookie, the remainder after the literal prefix `"Bearer "` is `xBearer y`,
which the identity provider `oddTokenOracle` accepts as an ID token; yet
`verifyAuth` rejects the request, because element 1 of the header split on `"Bearer "`
is the truncated segment `x` — the segment before the next occurrence of
`"Bearer "` — not the remainder. -/
theorem c1_counterexample :
    bearerRemainder "Bearer xBearer y" = "xBearer y" ∧
    oddTokenOracle.verifyIdToken (bearerRemainder "Bearer xBearer y") =
      some { uid := "u1" } ∧
    jsTruthy (AuthReq.mk none (some "Bearer xBearer y")).sessionCookie =
      false ∧
    jsStartsWith "Bearer xBearer y" "Bearer " = true ∧
    Organizations.verifyAuth oddTokenOracle
        { authorization := some "Bearer xBearer y" } =
      .reject 401 "Unauthorized - Invalid token" := by
  decide

/-- C1 amended: credential resolution is strictly cookie-first — a truthy
session cookie is verified revocation-checked and the `Authorization` header
is never consulted (the outcome is invariant under replacing it); otherwise
a `"Bearer "`-prefixed header has element 1 of its split on `"Bearer "` verified as an ID
token (this equals the remainder whenever the token holds no further
occurrence of `"Bearer "`); otherwise the request is rejected 401; and a
success attaches exactly the decoded claims produced by the verification
that ran. -/
theorem c1_theorem (o : AuthOracle) (req : AuthReq) :
    (jsTruthy req.sessionCookie = true →
      Organizations.verifyAuth o req =
        (match o.verifySessionCookie (req.sessionCookie.getD "") true with
         | some decodedClaims => .ok decodedClaims
         | none => .reject 401 "Unauthorized - Invalid token") ∧
      ∀ h, Organizations.verifyAuth o { req with authorization := h } =
          Organizations.verifyAuth o req) ∧
    (jsTruthy req.sessionCookie = false →
      (jsTruthy req.authorization &&
        jsStartsWith (req.authorization.getD "") "Bearer ") = true →
      Organizations.verifyAuth o req =
        (match o.verifyIdToken
            ((jsSplit (req.authorization.getD "") "Bearer ").getD 1 "") with
         | some decodedClaims => .ok decodedClaims
         | none => .reject 401 "Unauthorized - Invalid token")) ∧
    (jsTruthy req.sessionCookie = false →
      (jsTruthy req.authorization &&
        jsStartsWith (req.authorization.getD "") "Bearer ") = false →
      Organizations.verifyAuth o req =
        .reject 401 "Unauthorized - No valid authentication found") ∧
    (∀ u, Organizations.verifyAuth o req = .ok u →
      (jsTruthy req.sessionCookie = true ∧
        o.verifySessionCookie (req.sessionCookie.getD "") true = some u) ∨
      (jsTruthy req.sessionCookie = false ∧
        o.verifyIdToken
            ((jsSplit (req.authorization.getD "") "Bearer ").getD 1 "") =
          some u)) := by
  refine ⟨fun hc => ⟨?_, fun h => ?_⟩, fun hc hb => ?_, fun hc hb => ?_,
    fun u hu => ?_⟩
  · simp [Organizations.verifyAuth, hc]
  · simp [Organizations.verifyAuth, hc]
  · simp [Organizations.verifyAuth, hc, hb]
  · simp [Organizations.verifyAuth, hc, hb]
  · simp only [Organizations.verifyAuth] at hu
    by_cases hc : jsTruthy req.sessionCookie = true
    · simp only [hc, if_true] at hu
      left
      refine ⟨hc, ?_⟩
      cases hv : o.verifySessionCookie (req.sessionCookie.getD "") true
      · rw [hv] at hu; simp at hu
      · rw [hv] at hu; simp at hu; rw [hu]
    · have hc' : jsTruthy req.sessionCookie = false := by
        cases h : jsTruthy req.sessionCookie
        · rfl
        · exact absurd h hc
      right
      refine ⟨hc', ?_⟩
      simp only [hc', Bool.false_eq_true, if_false] at hu
      by_cases hb : (jsTruthy req.authorization &&
          jsStartsWith (req.authorization.getD "") "Bearer ") = true
      · simp only [hb, if_true] at hu
        cases hv : o.verifyIdToken
            ((jsSplit (req.authorization.getD "") "Bearer ").getD 1 "")
        · rw [hv] at hu; simp at hu
        · rw [hv] at hu; simp at hu; rw [hu]
      · have hb' : (jsTruthy req.authorization &&
            jsStartsWith (req.authorization.getD "") "Bearer ") = false := by
          cases h : (jsTruthy req.authorization &&
              jsStartsWith (req.authorization.getD "") "Bearer ")
          · rfl
          · exact absurd h hb
        simp only [hb', Bool.false_eq_true, if_false] at hu
        simp at hu

/-- C1 amended witness: a valid session cookie yields the decoded claims,
the outcome ignores the `Authorization` header, nothing presented is a 401,
and a rejected bearer token is a 401. -/
theorem c1_witness :
    Organizations.verifyAuth cookieOracle { sessionCookie := some "cookie1" } =
      .ok { uid := "u7" } ∧
    Organizations.verifyAuth cookieOracle
        { sessionCookie := some "cookie1",
          authorization := some "Bearer zzz" } =
      Organizations.verifyAuth cookieOracle
        { sessionCookie := some "cookie1" } ∧
    Organizations.verifyAuth rejectAllOracle {} =
      .reject 401 "Unauthorized - No valid authentication found" ∧
    Organizations.verifyAuth rejectAllOracle
        { authorization := some "Bearer tok" } =
      .reject 401 "Unauthorized - Invalid token" := by
  have h1 := (c1_theorem cookieOracle { sessionCookie := some "cookie1" }).1
    (by decide)
  have h2 := (c1_theorem rejectAllOracle {}).2.2.1 (by decide) (by decide)
  have h3 := (c1_theorem rejectAllOracle
    { authorization := some "Bearer tok" }).2.1 (by decide) (by decide)
  exact ⟨h1.1.trans (by decide), h1.2 (some "Bearer zzz"), h2,
    h3.trans (by decide)⟩

/-- C2 counterexample: with every verification failing, a request presenting
no credential and one presenting a rejected session cookie both draw a 401,
but with different error bodies — the rejection is not uniform across the
no-credential and failed-verification cases, so a caller can tell absence
from invalidity. -/
theorem c2_counterexample :
    Organizations.verifyAuth rejectAllOracle {} =
      .reject 401 "Unauthorized - No valid authentication found" ∧
    Organizations.verifyAuth rejectAllOracle { sessionCookie := some "bad" } =
      .reject 401 "Unauthorized - Invalid token" ∧
    Organizations.verifyAuth rejectAllOracle {} ≠
      Organizations.verifyAuth rejectAllOracle
        { sessionCookie := some "bad" } := by
  decide

/-- C2 amended: every rejection of `verifyAuth` carries status 401, and
whenever a credential was presented (truthy session cookie, or
Bearer-prefixed header) and its verification failed — malformed, expired,
revoked, signature mismatch: the oracle is arbitrary — the rejection is the
single fixed response `401 "Unauthorized - Invalid token"`, so
verification-failure reasons are never distinguished to the caller; only
the no-credential rejection differs, in its message. -/
theorem c2_theorem (o : AuthOracle) (req : AuthReq) :
    (∀ s e, Organizations.verifyAuth o req = .reject s e → s = 401) ∧
    ((jsTruthy req.sessionCookie ||
       (jsTruthy req.authorization &&
         jsStartsWith (req.authorization.getD "") "Bearer ")) = true →
      ∀ s e, Organizations.verifyAuth o req = .reject s e →
        AuthResult.reject s e = .reject 401 "Unauthorized - Invalid token") := by
  constructor
  · intro s e h
    simp only [Organizations.verifyAuth] at h
    split at h
    · split at h
      · exact absurd h (by simp)
      · injection h with h1 h2
        exact h1.symm
    · split at h
      · split at h
        · exact absurd h (by simp)
        · injection h with h1 h2
          exact h1.symm
      · injection h with h1 h2
        exact h1.symm
  · intro hpres s e h
    simp only [Organizations.verifyAuth] at h
    by_cases hc : jsTruthy req.sessionCookie = true
    · simp only [hc, if_true] at h
      cases hv : o.verifySessionCookie (req.sessionCookie.getD "") true
      · rw [hv] at h; exact h.symm
      · rw [hv] at h; exact absurd h (by simp)
    · have hc' : jsTruthy req.sessionCookie = false := by
        cases hx : jsTruthy req.sessionCookie
        · rfl
        · exact absurd hx hc
      have hb : (jsTruthy req.authorization &&
          jsStartsWith (req.authorization.getD "") "Bearer ") = true := by
        rw [hc'] at hpres
        simpa using hpres
      simp only [hc', Bool.false_eq_true, if_false, hb, if_true] at h
      cases hv : o.verifyIdToken
          ((jsSplit (req.authorization.getD "") "Bearer ").getD 1 "")
      · rw [hv] at h; exact h.symm
      · rw [hv] at h; exact absurd h (by simp)

/-- C2 amended witness: a rejected session cookie is answered with status
401 and the fixed invalid-token body. -/
theorem c2_witness :
    (Organizations.verifyAuth rejectAllOracle
        { sessionCookie := some "expired" } =
      .reject 401 "Unauthorized - Invalid token") ∧
    (401 = 401) ∧
    (AuthResult.reject 401 "Unauthorized - Invalid token" =
      .reject 401 "Unauthorized - Invalid token") :=
  ⟨by decide,
   (c2_theorem rejectAllOracle { sessionCookie := some "expired" }).1 401
     "Unauthorized - Invalid token" (by decide),
   (c2_theorem rejectAllOracle { sessionCookie := some "expired" }).2
     (by decide) 401 "Unauthorized - Invalid token" (by decide)⟩

/-- C7: bulk-assign on a non-empty device-id list — with the target
organization resolving (an existing organization when a truthy id is
supplied, `"Unassigned"` otherwise) — answers 200; the reported
`updatedCount` is the number of listed ids referring to existing devices;
devices not listed keep their documents untouched (non-existent ids are
silently skipped); each listed existing device receives exactly the
organization reference, denormalized organization name and update metadata;
the whole batch is a single state transition of the model and the organization
collection is untouched. -/
theorem c7_theorem (uid now : String) (st : Store) (ids : List String)
    (oid : JStr) (orgName : String)
    (hne : ids.isEmpty = false)
    (hres : if oid.truthy then
        (st.organizations.find? (fun q => q.1 == oid.getStr)).map
          (fun q => q.2.name) = some orgName
      else orgName = "Unassigned") :
    (Devices.bulkAssign uid now st
        { deviceIds := some ids, organizationId := oid }).1.status = 200 ∧
    (Devices.bulkAssign uid now st
        { deviceIds := some ids, organizationId := oid }).1.updatedCount =
      some (ids.filter
        (fun did => (st.devices.find? (fun p => p.1 == did)).isSome)).length ∧
    (∀ did d, (did, d) ∈ st.devices → did ∉ ids →
      (did, d) ∈ (Devices.bulkAssign uid now st
        { deviceIds := some ids, organizationId := oid }).2.devices) ∧
    (∀ did d, (did, d) ∈ st.devices → did ∈ ids →
      (did, { d with
                organizationId :=
                  if oid.truthy then some oid.getStr else none,
                organizationName := orgName, updatedAt := now,
                lastModifiedBy := some uid }) ∈
        (Devices.bulkAssign uid now st
          { deviceIds := some ids, organizationId := oid }).2.devices) ∧
    (Devices.bulkAssign uid now st
        { deviceIds := some ids, organizationId := oid }).2.organizations =
      st.organizations := by
  have key : Devices.bulkAssign uid now st
      { deviceIds := some ids, organizationId := oid } =
      ({ status := 200, success := some true,
         message := some ("Successfully assigned " ++
           toString (ids.filter (fun did =>
             (st.devices.find? (fun p => p.1 == did)).isSome)).length ++
           " devices"),
         updatedCount := some (ids.filter (fun did =>
           (st.devices.find? (fun p => p.1 == did)).isSome)).length },
       { st with devices := st.devices.map (fun p =>
           if (ids.filter (fun did =>
               (st.devices.find? (fun q => q.1 == did)).isSome)).contains p.1
           then
             (p.1, { p.2 with
                       organizationId :=
                         if oid.truthy then some oid.getStr else none,
                       organizationName := orgName, updatedAt := now,
                       lastModifiedBy := some uid })
           else p) }) := by
    by_cases ht : oid.truthy = true
    · simp only [ht, if_true] at hres
      obtain ⟨orgp, hfind, hname⟩ : ∃ orgp,
          st.organizations.find? (fun q => q.1 == oid.getStr) = some orgp ∧
            orgp.2.name = orgName := by
        cases hf : st.organizations.find? (fun q => q.1 == oid.getStr)
        · rw [hf] at hres; simp at hres
        · rw [hf] at hres; simp at hres; exact ⟨_, rfl, hres⟩
      simp [Devices.bulkAssign, hne, ht, hfind, hname]
    · have ht' : oid.truthy = false := by
        cases hx : oid.truthy
        · rfl
        · exact absurd hx ht
      simp only [ht', Bool.false_eq_true, if_false] at hres
      subst hres
      simp [Devices.bulkAssign, hne, ht']
  rw [key]
  refine ⟨rfl, rfl, fun did d hmem hnotin => ?_, fun did d hmem hin => ?_, rfl⟩
  · refine List.mem_map.mpr ⟨(did, d), hmem, ?_⟩
    have hcon : (ids.filter (fun did2 =>
        (st.devices.find? (fun q => q.1 == did2)).isSome)).contains did =
          false := by
      cases hx : (ids.filter (fun did2 =>
          (st.devices.find? (fun q => q.1 == did2)).isSome)).contains did
      · rfl
      · exact absurd (List.mem_filter.mp
          (List.mem_of_elem_eq_true hx)).1 hnotin
    simp only [hcon, Bool.false_eq_true, if_false]
  · refine List.mem_map.mpr ⟨(did, d), hmem, ?_⟩
    have hcon : (ids.filter (fun did2 =>
        (st.devices.find? (fun q => q.1 == did2)).isSome)).contains did =
          true := by
      refine List.elem_eq_true_of_mem (List.mem_filter.mpr ⟨hin, ?_⟩)
      exact List.find?_isSome.mpr ⟨(did, d), hmem, by simp⟩
    simp only [hcon, if_true]

/-- C7 witness: bulk-assigning the existing device `d1` and the non-existent
id `dX` answers 200 with `updatedCount = 1`. -/
theorem c7_witness :
    (Devices.bulkAssign "u1" "t9" demoStore
        { deviceIds := some ["d1", "dX"] }).1.status = 200 ∧
    (Devices.bulkAssign "u1" "t9" demoStore
        { deviceIds := some ["d1", "dX"] }).1.updatedCount = some 1 := by
  have h := c7_theorem "u1" "t9" demoStore ["d1", "dX"] .jsUndefined "Unassigned"
    (by decide) (by decide)
  exact ⟨h.1, h.2.1.trans (by decide)⟩
